import Mathlib

/-!
Verification of the WTForms OTP validators (`oath_toolkit/wtforms.py`).

The file embeds the validator classes shallowly:

* `OTPValidator`, `HOTPValidator`, `TOTPValidator` are structures holding the
  fields set in the corresponding `__init__` methods (the `oath` collaborator
  is represented by its `computeCode` capability).
* Python exceptions are modelled by the `PyExc` type; a function that can
  raise returns `Except PyExc α`.  `ValidationError` and `RuntimeError` are
  the two exception classes the validator distinguishes.
* Methods additionally return a `CallCounts` record counting invocations of
  the secret-resolution capability and of the OTP matcher, so that
  "resolved exactly once / never before the structural checks" is a provable
  statement rather than an informal one.
* The `OATH` library methods `hotp_validate` / `totp_validate` and the
  helper `to_bytes` are not part of the source tree; they are modelled from
  the specification (window scan with clamping at zero, floor-division time
  counter, default time step 30).
-/

namespace OathToolkit

/-- Byte sequences (Python `bytes`). -/
abbrev Bytes := List Nat

/-- Modelled from the spec: `oath_toolkit._compat.to_bytes` is not in the
source tree; it encodes a text secret into the byte sequence used as the
HMAC key. -/
def to_bytes (s : String) : Bytes :=
  s.data.map Char.toNat

/-- A user record carrying the stored OATH secret (`form.user.oath_secret`). -/
structure User where
  oath_secret : String

/-- The WTForms form object, as far as the validator touches it. -/
structure Form where
  user : User

/-- The WTForms field object: `field.data` is the submitted code
(`none` models an absent value, Python `None`). -/
structure Field where
  data : Option String

/-- Python truthiness of `field.data`: `not field.data` is true exactly for
`None` and the empty string. -/
def dataFalsy : Option String → Bool
  | none => true
  | some s => decide (s = "")

/-- Python exceptions distinguished by the validator. -/
inductive PyExc where
  | validationError (msg : String)
  | runtimeError (msg : String)
deriving DecidableEq, Repr

/-- Invocation counts for the two external collaborators: the
secret-resolution capability and the OTP matcher. -/
structure CallCounts where
  resolves : Nat
  matcherCalls : Nat
deriving DecidableEq, Repr

/-- `field.gettext(u'OTP is invalid.')`, the generic rejection message. -/
def genericError : String := "OTP is invalid."

/-- `field.gettext(u'Field is required.')`, the missing-input message. -/
def missingMsg : String := "Field is required."

/-- The verbose wrong-length template `u'OTP must be {digits} digits.'`. -/
def wrongLengthTemplate : String := "OTP must be \x7bdigits\x7d digits."

/-- The verbose underlying-error template `'Error validating OTP: {err}'`. -/
def underlyingTemplate : String := "Error validating OTP: \x7berr\x7d"

/-- Strip `pat` from the front of a character list, returning the remainder
when `pat` is a prefix. -/
def dropPat : List Char → List Char → Option (List Char)
  | [], rest => some rest
  | _ :: _, [] => none
  | p :: ps, c :: cs => if p = c then dropPat ps cs else none

/-- Replace every occurrence of `pat` by `rep` in a character list; the fuel
(the list's length suffices) makes the recursion structural. -/
def replaceFuel (pat rep : List Char) : Nat → List Char → List Char
  | _, [] => []
  | 0, s => s
  | fuel + 1, c :: cs =>
    match dropPat pat (c :: cs) with
    | some rest => rep ++ replaceFuel pat rep fuel rest
    | none => c :: replaceFuel pat rep fuel cs

/-- Python `msg.format(key=value)` for the validator's message templates:
substitute every occurrence of the braced placeholder named `key`; a
template without the placeholder is returned unchanged. -/
def pyFormat (template key value : String) : String :=
  ⟨replaceFuel ("\x7b" ++ key ++ "\x7d").data value.data
    template.data.length template.data⟩

/-- `msg.format(digits=d)` as used by `__call__`. -/
def pyFormatDigits (msg : String) (d : Nat) : String :=
  pyFormat msg "digits" (toString d)

/-- `msg.format(err=e)` as used by `__call__`. -/
def pyFormatErr (msg : String) (e : String) : String :=
  pyFormat msg "err" e

/-- State held by `OTPValidator.__init__`: `digits`, `window`,
`verbose_errors`, the `OATH()` collaborator (its `computeCode` capability)
and the optional secret-resolution callable.  No secret material is stored. -/
structure OTPValidator where
  digits : Nat
  window : Nat
  verbose : Bool
  oath : Bytes → Nat → Nat → Bytes
  get_secret : Option (Form → Field → Except PyExc String)

/-- `OTPValidator.get_oath_secret`: use the bound callable if present, else
read `form.user.oath_secret`; convert the result with `to_bytes`.  One
resolution of the secret is counted. -/
def OTPValidator.get_oath_secret (v : OTPValidator) (form : Form)
    (field : Field) : Except PyExc Bytes × CallCounts :=
  (match v.get_secret with
   | some f => (f form field).map to_bytes
   | none => .ok (to_bytes form.user.oath_secret),
   ⟨1, 0⟩)

/-- `OTPValidator.__call__`: structural checks, then the variant's
`otp_validate` inside `try/except RuntimeError`.  The `otpv` argument is the
variant's (late-bound) `otp_validate` method; it is invoked only when both
structural checks pass, mirroring the Python control flow. -/
def OTPValidator.call (v : OTPValidator)
    (otpv : Unit → Except PyExc Unit × CallCounts) (field : Field) :
    Except PyExc Unit × CallCounts :=
  if dataFalsy field.data then
    (.error (.validationError missingMsg), ⟨0, 0⟩)
  else if (field.data.getD "").length ≠ v.digits then
    (.error (.validationError
      (pyFormatDigits (if v.verbose then wrongLengthTemplate else genericError)
        v.digits)), ⟨0, 0⟩)
  else
    match otpv () with
    | (.ok _, n) => (.ok (), n)
    | (.error (.runtimeError e), n) =>
      (.error (.validationError
        (pyFormatErr (if v.verbose then underlyingTemplate else genericError)
          e)), n)
    | (.error exc, n) => (.error exc, n)

/-- Modelled from the spec: the window-scan offset enumeration
`0, 1, -1, 2, -2, …` up to `window` in each direction. -/
def scanOffsets : Nat → List Int
  | 0 => [0]
  | n + 1 => scanOffsets n ++ [((n : Int) + 1), -((n : Int) + 1)]

/-- Modelled from the spec: the offsets the scan actually attempts — those
whose counter `movingFactor + offset` does not underflow (counters are
unsigned; the lower bound clamps to zero rather than wrapping). -/
def candidateOffsets (movingFactor : Int) (window : Nat) : List Int :=
  (scanOffsets window).filter (fun k => decide (0 ≤ movingFactor + k))

/-- Diagnostic carried by the matcher's no-match failure. -/
def noMatchMsg : String := "no match in window"

/-- Modelled from the spec: the shared window-scan core.  `cc` is the
external `computeCode(secret, counter, digits)` capability; the scan tries
each non-underflowing offset in enumeration order, compares the computed
code with the submitted one, returns the first matching offset, and raises
(`RuntimeError`) when no code in the window matches. -/
def window_scan (cc : Bytes → Nat → Nat → Bytes) (secret : Bytes)
    (movingFactor : Int) (window digits : Nat) (code : Bytes) :
    Except PyExc Int :=
  match (candidateOffsets movingFactor window).find?
      (fun k => decide (cc secret ((movingFactor + k).toNat) digits = code)) with
  | some k => .ok k
  | none => .error (.runtimeError noMatchMsg)

/-- Modelled from the spec: `OATH.hotp_validate` — the HOTP matcher is the
window scan anchored at the unsigned `movingFactor`. -/
def hotp_validate (cc : Bytes → Nat → Nat → Bytes) (secret : Bytes)
    (movingFactor : Nat) (window digits : Nat) (code : Bytes) :
    Except PyExc Int :=
  window_scan cc secret (movingFactor : Int) window digits code

/-- Modelled from the spec: the time-step size actually used by the TOTP
matcher — the configured value, or 30 when unset. -/
def totpStepUsed (time_step_size : Option Nat) : Nat :=
  time_step_size.getD 30

/-- Modelled from the spec: `OATH.totp_validate` — compute the base counter
`T = floor((now - startTime) / timeStepSize)` once from the sampled time
(floor division, rounding toward negative infinity) and delegate to the same
window scan as HOTP with `movingFactor = T`. -/
def totp_validate (cc : Bytes → Nat → Nat → Bytes) (secret : Bytes)
    (now : Int) (time_step_size : Option Nat) (start_time : Int)
    (window digits : Nat) (code : Bytes) : Except PyExc Int :=
  window_scan cc secret
    (Int.fdiv (now - start_time) (totpStepUsed time_step_size : Int))
    window digits code

/-- `HOTPValidator.__init__` state: the shared fields plus
`start_moving_factor` (unsigned). -/
structure HOTPValidator extends OTPValidator where
  start_moving_factor : Nat

/-- `HOTPValidator.otp_validate`: resolve the secret via `get_oath_secret`,
call `oath.hotp_validate` with it, the stored moving factor and window, and
the submitted code converted by `to_bytes`; the matcher's return value is
discarded. -/
def HOTPValidator.otp_validate (v : HOTPValidator) (form : Form)
    (field : Field) : Except PyExc Unit × CallCounts :=
  match v.toOTPValidator.get_oath_secret form field with
  | (.error e, n) => (.error e, n)
  | (.ok secret, n) =>
    (match hotp_validate v.oath secret v.start_moving_factor v.window
        v.digits (to_bytes (field.data.getD "")) with
     | .ok _ => .ok ()
     | .error e => .error e,
     ⟨n.resolves, n.matcherCalls + 1⟩)

/-- `HOTPValidator.__call__` (inherited from `OTPValidator`). -/
def HOTPValidator.call (v : HOTPValidator) (form : Form) (field : Field) :
    Except PyExc Unit × CallCounts :=
  v.toOTPValidator.call (fun _ => v.otp_validate form field) field

/-- `TOTPValidator.__init__` state: the shared fields plus `start_time`
(converted to an integer) and the optional `time_step_size`. -/
structure TOTPValidator extends OTPValidator where
  start_time : Int
  time_step_size : Option Nat

/-- `TOTPValidator.otp_validate`: resolve the secret, sample the current
time once (`time.time()`, the `now` argument) and call `oath.totp_validate`
with it; the matcher's return value is discarded. -/
def TOTPValidator.otp_validate (v : TOTPValidator) (now : Int) (form : Form)
    (field : Field) : Except PyExc Unit × CallCounts :=
  match v.toOTPValidator.get_oath_secret form field with
  | (.error e, n) => (.error e, n)
  | (.ok secret, n) =>
    (match totp_validate v.oath secret now v.time_step_size v.start_time
        v.window v.digits (to_bytes (field.data.getD "")) with
     | .ok _ => .ok ()
     | .error e => .error e,
     ⟨n.resolves, n.matcherCalls + 1⟩)

/-- `TOTPValidator.__call__` (inherited from `OTPValidator`); `now` is the
time sampled once at the start of the matching step. -/
def TOTPValidator.call (v : TOTPValidator) (now : Int) (form : Form)
    (field : Field) : Except PyExc Unit × CallCounts :=
  v.toOTPValidator.call (fun _ => v.otp_validate now form field) field

/-- The rejection reasons of the validator's error taxonomy, with the
parameters each carries for message formatting. -/
inductive RejectionReason where
  | missingInput
  | wrongLength (digits : Nat)
  | underlyingError (detail : String)
deriving DecidableEq, Repr

/-- The rejection-message mapping as a standalone function of
`(verbose, reason)`, read off the branches of `__call__`. -/
def rejectionMessage (verbose : Bool) : RejectionReason → String
  | .missingInput => missingMsg
  | .wrongLength d =>
    pyFormatDigits (if verbose then wrongLengthTemplate else genericError) d
  | .underlyingError e =>
    pyFormatErr (if verbose then underlyingTemplate else genericError) e

/-- `__call__` as the spec words it: structural checks, then the matcher,
with every rejection's message drawn from the `(verbose, reason)` mapping
and uncaught exceptions passed through. -/
def classifiedCall (v : OTPValidator)
    (otpv : Unit → Except PyExc Unit × CallCounts) (field : Field) :
    Except PyExc Unit :=
  if dataFalsy field.data then
    .error (.validationError (rejectionMessage v.verbose .missingInput))
  else if (field.data.getD "").length ≠ v.digits then
    .error (.validationError (rejectionMessage v.verbose (.wrongLength v.digits)))
  else
    match (otpv ()).fst with
    | .ok _ => .ok ()
    | .error (.runtimeError e) =>
      .error (.validationError (rejectionMessage v.verbose (.underlyingError e)))
    | .error exc => .error exc

/- Concrete fixtures used by witnesses and counterexamples. -/

/-- A concrete, counter-injective `computeCode` collaborator. -/
def cc0 : Bytes → Nat → Nat → Bytes := fun _ c _ => to_bytes (toString c)

/-- A concrete form whose user stores the secret `"k"`. -/
def form0 : Form := ⟨⟨"k"⟩⟩

/-- A concrete HOTP validator: one digit, window 1, moving factor 5,
terse errors, secret taken from the form's user. -/
def v0 : HOTPValidator :=
  { digits := 1, window := 1, verbose := false, oath := cc0,
    get_secret := none, start_moving_factor := 5 }

/-- A secret resolver that always fails with a `RuntimeError`. -/
def failingResolver : Form → Field → Except PyExc String :=
  fun _ _ => .error (.runtimeError "boom")

/-- `v0` with the failing resolver bound instead of the user attribute. -/
def vErr : HOTPValidator :=
  { v0 with get_secret := some failingResolver }

/-- A concrete TOTP validator with unset time-step size. -/
def vT : TOTPValidator :=
  { digits := 1, window := 1, verbose := false, oath := cc0,
    get_secret := none, start_time := 0, time_step_size := none }

/- Helper lemmas. -/

theorem pyFormatDigits_generic (d : Nat) :
    pyFormatDigits genericError d = genericError := rfl

theorem pyFormatDigits_verbose (d : Nat) :
    pyFormatDigits wrongLengthTemplate d
      = "OTP must be " ++ toString d ++ " digits." := rfl

theorem pyFormatErr_generic (e : String) :
    pyFormatErr genericError e = genericError := rfl

theorem pyFormatErr_verbose (e : String) :
    pyFormatErr underlyingTemplate e = "Error validating OTP: " ++ e := by
  show String.mk ("Error validating OTP: ".data ++ (e.data ++ [])) = _
  rw [List.append_nil]
  rfl

theorem mem_scanOffsets (W : Nat) (j : Int) :
    j ∈ scanOffsets W ↔ j.natAbs ≤ W := by
  induction W with
  | zero =>
    simp only [scanOffsets, List.mem_singleton]
    omega
  | succ n ih =>
    simp only [scanOffsets, List.mem_append, ih, List.mem_cons,
      List.mem_singleton, List.not_mem_nil, or_false]
    omega

theorem find_unique {p : Int → Bool} {l : List Int} {k : Int}
    (hk : k ∈ l) (huniq : ∀ x ∈ l, p x = true ↔ x = k) :
    l.find? p = some k := by
  induction l with
  | nil => cases hk
  | cons a t ih =>
    by_cases ha : p a = true
    · have hak : a = k := (huniq a (List.mem_cons_self a t)).1 ha
      cases hak
      simp [List.find?, ha]
    · have hak : a ≠ k := by
        intro h
        exact ha ((huniq a (List.mem_cons_self a t)).2 h)
      have hkt : k ∈ t := by
        cases List.mem_cons.1 hk with
        | inl h => exact absurd h.symm hak
        | inr h => exact h
      have hrec := ih hkt (fun x hx => huniq x (List.mem_cons_of_mem a hx))
      simp [List.find?, ha, hrec]

theorem mem_candidateOffsets (mf : Int) (W : Nat) (j : Int) :
    j ∈ candidateOffsets mf W ↔ j.natAbs ≤ W ∧ 0 ≤ mf + j := by
  simp [candidateOffsets, List.mem_filter, mem_scanOffsets]

theorem window_scan_shape (cc : Bytes → Nat → Nat → Bytes) (secret : Bytes)
    (mf : Int) (window digits : Nat) (code : Bytes) :
    (∃ k, window_scan cc secret mf window digits code = .ok k)
    ∨ window_scan cc secret mf window digits code
        = .error (.runtimeError noMatchMsg) := by
  unfold window_scan
  cases h : (candidateOffsets mf window).find?
      (fun k => decide (cc secret ((mf + k).toNat) digits = code)) with
  | none => right; simp [h]
  | some k => left; exact ⟨k, by simp [h]⟩

theorem otp_validate_resolves (v : HOTPValidator) (form : Form)
    (field : Field) : (v.otp_validate form field).snd.resolves = 1 := by
  unfold HOTPValidator.otp_validate
  rcases hs : v.toOTPValidator.get_oath_secret form field with ⟨r, n⟩
  have hn : n = ⟨1, 0⟩ := by
    have h2 : (v.toOTPValidator.get_oath_secret form field).snd = ⟨1, 0⟩ := rfl
    rw [hs] at h2
    exact h2
  subst hn
  rcases r with exc | secret
  · simp [hs]
  · simp [hs]

/- Claim theorems. -/

/-- C1: for a non-empty, correct-length submitted code, a secret-resolution
failure (a `RuntimeError` from the bound resolver) makes `__call__` reject
with the classified underlying-error message, the diagnostic detail being
surfaced only when `verbose` is set; and as long as the resolver fails only
with `RuntimeError`s, every failure of the resolution or matching step
leaves `__call__` as a classified `ValidationError`, never as an unhandled
exception. -/
theorem c1_resolution_failure_classified (v : HOTPValidator) (form : Form)
    (field : Field) (s : String) (f : Form → Field → Except PyExc String)
    (hdata : field.data = some s) (hne : s ≠ "") (hlen : s.length = v.digits)
    (hgs : v.get_secret = some f) :
    (∀ d, f form field = .error (.runtimeError d) →
      (v.call form field).fst
        = .error (.validationError
            (pyFormatErr
              (if v.verbose then underlyingTemplate else genericError) d)))
    ∧ ((∀ m, f form field ≠ .error (.validationError m)) →
      ∀ e, (v.call form field).fst = .error e → ∃ m, e = .validationError m)
    ∧ (∀ d, pyFormatErr underlyingTemplate d = "Error validating OTP: " ++ d)
    ∧ (∀ d, pyFormatErr genericError d = genericError) := by
  have hfal : dataFalsy (some s) = false := by
    simp [dataFalsy, hne]
  refine ⟨?_, ?_, fun d => pyFormatErr_verbose d, fun d => pyFormatErr_generic d⟩
  · intro d hd
    simp [HOTPValidator.call, OTPValidator.call, HOTPValidator.otp_validate,
      OTPValidator.get_oath_secret, hgs, hd, hdata, hfal, hlen, Except.map]
  · intro hnv e he
    rcases hf : f form field with exc | s'
    · rcases exc with m | m
      · exact absurd hf (hnv m)
      · have hcall : (v.call form field).fst
            = .error (.validationError
                (pyFormatErr
                  (if v.verbose then underlyingTemplate else genericError)
                  m)) := by
          simp [HOTPValidator.call, OTPValidator.call,
            HOTPValidator.otp_validate, OTPValidator.get_oath_secret, hgs, hf,
            hdata, hfal, hlen, Except.map]
        rw [hcall] at he
        exact ⟨_, (Except.error.inj he).symm⟩
    · rcases window_scan_shape v.oath (to_bytes s') v.start_moving_factor
          v.window v.digits (to_bytes s) with ⟨k, hk⟩ | hk
      · have hcall : (v.call form field).fst = .ok () := by
          simp [HOTPValidator.call, OTPValidator.call,
            HOTPValidator.otp_validate, OTPValidator.get_oath_secret, hgs, hf,
            hdata, hfal, hlen, Except.map, hotp_validate, hk]
        rw [hcall] at he
        cases he
      · have hcall : (v.call form field).fst
            = .error (.validationError
                (pyFormatErr
                  (if v.verbose then underlyingTemplate else genericError)
                  noMatchMsg)) := by
          simp [HOTPValidator.call, OTPValidator.call,
            HOTPValidator.otp_validate, OTPValidator.get_oath_secret, hgs, hf,
            hdata, hfal, hlen, Except.map, hotp_validate, hk]
        rw [hcall] at he
        exact ⟨_, (Except.error.inj he).symm⟩

/-- Witness for C1: with the always-failing resolver bound, a well-formed
code is rejected with the classified underlying-error message. -/
theorem c1_resolution_failure_classified_witness :
    (vErr.call form0 ⟨some "9"⟩).fst
      = .error (.validationError
          (pyFormatErr
            (if vErr.verbose then underlyingTemplate else genericError)
            "boom")) :=
  (c1_resolution_failure_classified vErr form0 ⟨some "9"⟩ "9" failingResolver
    rfl (by decide) (by decide) rfl).1 "boom" rfl

/-- C2 counterexample: the claim that the matched offset is delivered to the
caller and that no-match is a reason distinct from `UnderlyingError` fails
on the code — a code matching at offset 1 and one matching at offset 0
produce the identical caller-visible outcome `.ok ()`, and a no-match
rejection is byte-for-byte identical to a secret-resolution-failure
rejection. -/
theorem c2_offset_not_delivered_counterexample :
    (v0.call form0 ⟨some "6"⟩).fst = .ok ()
    ∧ (v0.call form0 ⟨some "5"⟩).fst = .ok ()
    ∧ hotp_validate cc0 (to_bytes "k") 5 1 1 (to_bytes "6") = .ok 1
    ∧ hotp_validate cc0 (to_bytes "k") 5 1 1 (to_bytes "5") = .ok 0
    ∧ (v0.call form0 ⟨some "6"⟩).fst = (v0.call form0 ⟨some "5"⟩).fst
    ∧ (v0.call form0 ⟨some "9"⟩).fst = .error (.validationError genericError)
    ∧ (vErr.call form0 ⟨some "9"⟩).fst
        = .error (.validationError genericError)
    ∧ (v0.call form0 ⟨some "9"⟩).fst = (vErr.call form0 ⟨some "9"⟩).fst :=
  ⟨rfl, rfl, rfl, rfl, rfl, rfl, rfl, rfl⟩

/-- C2 (amended): once a call reaches the matcher, matcher success yields
acceptance with the matched offset discarded (the caller sees only
`.ok ()`, whatever the offset), and matcher failure with no code matching in
the window yields a rejection classified through the same `RuntimeError`
handler as an underlying error, with the same message shape. -/
theorem c2_amended_outcome_shapes (v : HOTPValidator) (form : Form)
    (field : Field) (s : String) (b : Bytes)
    (hdata : field.data = some s) (hne : s ≠ "") (hlen : s.length = v.digits)
    (hsec : (v.toOTPValidator.get_oath_secret form field).fst = .ok b) :
    (∀ k, hotp_validate v.oath b v.start_moving_factor v.window v.digits
        (to_bytes s) = .ok k →
      (v.call form field).fst = .ok ())
    ∧ (hotp_validate v.oath b v.start_moving_factor v.window v.digits
        (to_bytes s) = .error (.runtimeError noMatchMsg) →
      (v.call form field).fst
        = .error (.validationError
            (pyFormatErr
              (if v.verbose then underlyingTemplate else genericError)
              noMatchMsg))) := by
  have hfal : dataFalsy (some s) = false := by
    simp [dataFalsy, hne]
  have hsnd : v.toOTPValidator.get_oath_secret form field
      = (.ok b, ⟨1, 0⟩) := by
    rcases hs : v.toOTPValidator.get_oath_secret form field with ⟨r, n⟩
    have h2 : (v.toOTPValidator.get_oath_secret form field).snd = ⟨1, 0⟩ := rfl
    rw [hs] at hsec h2
    simp at hsec h2
    rw [hsec, h2]
  constructor
  · intro k hk
    simp [HOTPValidator.call, OTPValidator.call, HOTPValidator.otp_validate,
      hsnd, hdata, hfal, hlen, hk]
  · intro hk
    simp [HOTPValidator.call, OTPValidator.call, HOTPValidator.otp_validate,
      hsnd, hdata, hfal, hlen, hk]

/-- Witness for the amended C2: a code matching at offset 1 yields the bare
acceptance `.ok ()`. -/
theorem c2_amended_outcome_shapes_witness :
    (v0.call form0 ⟨some "6"⟩).fst = .ok () :=
  (c2_amended_outcome_shapes v0 form0 ⟨some "6"⟩ "6" (to_bytes "k") rfl
    (by decide) (by decide) rfl).1 1 rfl

/-- C3: an empty or absent submitted code is rejected with the dedicated
missing-input message for every configuration (any `digits`, `window`,
`verbose` and any variant matcher), and that message is a constant distinct
from the generic rejection message. -/
theorem c3_missing_input_dedicated (v : OTPValidator)
    (otpv : Unit → Except PyExc Unit × CallCounts) (field : Field)
    (h : dataFalsy field.data = true) :
    (v.call otpv field).fst = .error (.validationError missingMsg)
      ∧ missingMsg ≠ genericError := by
  constructor
  · simp [OTPValidator.call, h]
  · decide

/-- Witness for C3: the absent code is rejected with the missing-input
message. -/
theorem c3_missing_input_dedicated_witness :
    (v0.call form0 ⟨none⟩).fst = .error (.validationError missingMsg)
      ∧ missingMsg ≠ genericError :=
  c3_missing_input_dedicated v0.toOTPValidator
    (fun _ => v0.otp_validate form0 ⟨none⟩) ⟨none⟩ rfl

/-- C4: with `digits > 0`, every non-empty submitted code whose length
differs from `digits` is rejected with the wrong-length message regardless
of its content, the message being formatted with the configured `digits`
value (never the submitted length). -/
theorem c4_wrong_length_configured_digits (v : OTPValidator)
    (otpv : Unit → Except PyExc Unit × CallCounts) (field : Field)
    (s : String) (hdig : 0 < v.digits) (hdata : field.data = some s)
    (hne : s ≠ "") (hlen : s.length ≠ v.digits) :
    (v.call otpv field).fst
      = .error (.validationError
          (pyFormatDigits
            (if v.verbose then wrongLengthTemplate else genericError)
            v.digits))
    ∧ pyFormatDigits wrongLengthTemplate v.digits
        = "OTP must be " ++ toString v.digits ++ " digits."
    ∧ pyFormatDigits genericError v.digits = genericError := by
  refine ⟨?_, pyFormatDigits_verbose _, pyFormatDigits_generic _⟩
  have hfal : dataFalsy (some s) = false := by
    simp [dataFalsy, hne]
  simp [OTPValidator.call, hdata, hfal, hlen]

/-- Witness for C4: a two-character code against `digits = 1` is rejected
with the wrong-length message carrying the configured digits value. -/
theorem c4_wrong_length_configured_digits_witness :
    (v0.call form0 ⟨some "55"⟩).fst
      = .error (.validationError
          (pyFormatDigits
            (if v0.verbose then wrongLengthTemplate else genericError)
            v0.digits))
    ∧ pyFormatDigits wrongLengthTemplate v0.digits
        = "OTP must be " ++ toString v0.digits ++ " digits."
    ∧ pyFormatDigits genericError v0.digits = genericError :=
  c4_wrong_length_configured_digits v0.toOTPValidator
    (fun _ => v0.otp_validate form0 ⟨some "55"⟩) ⟨some "55"⟩ "55"
    (by decide) rfl (by decide) (by decide)

/-- C5: the rejection-message mapping is the pure function
`rejectionMessage` of `(verbose, reason)` — `__call__` equals the
`classifiedCall` refinement built on it; with `verbose` off, wrong-length
and underlying-error rejections collapse to the one generic message while
missing-input keeps its own message under both settings; with `verbose` on
they are parameterized by the configured digits value and the failure
detail; and the accept/reject decision is unaffected by `verbose`. -/
theorem c5_rejection_message_mapping (v : OTPValidator)
    (otpv : Unit → Except PyExc Unit × CallCounts) (field : Field)
    (d : Nat) (e : String) :
    (v.call otpv field).fst = classifiedCall v otpv field
    ∧ rejectionMessage false (.wrongLength d) = genericError
    ∧ rejectionMessage false (.underlyingError e) = genericError
    ∧ rejectionMessage true .missingInput = missingMsg
    ∧ rejectionMessage false .missingInput = missingMsg
    ∧ rejectionMessage true (.wrongLength d)
        = "OTP must be " ++ toString d ++ " digits."
    ∧ rejectionMessage true (.underlyingError e)
        = "Error validating OTP: " ++ e
    ∧ (({ v with verbose := true } : OTPValidator).call otpv field).fst.isOk
        = (({ v with verbose := false } : OTPValidator).call otpv
            field).fst.isOk := by
  refine ⟨?_, rfl, rfl, rfl, rfl, pyFormatDigits_verbose d,
    pyFormatErr_verbose e, ?_⟩
  · by_cases h1 : dataFalsy field.data
    · simp [OTPValidator.call, classifiedCall, h1, rejectionMessage]
    · by_cases h2 : (field.data.getD "").length = v.digits
      · rcases hot : otpv () with ⟨r, n⟩
        rcases r with exc | u
        · rcases exc with m | m <;>
            simp [OTPValidator.call, classifiedCall, h1, h2, hot,
              rejectionMessage]
        · simp [OTPValidator.call, classifiedCall, h1, h2, hot]
      · simp [OTPValidator.call, classifiedCall, h1, h2, rejectionMessage]
  · by_cases h1 : dataFalsy field.data
    · simp [OTPValidator.call, h1, Except.isOk]
    · by_cases h2 : (field.data.getD "").length = v.digits
      · rcases hot : otpv () with ⟨r, n⟩
        rcases r with exc | u
        · rcases exc with m | m <;>
            simp [OTPValidator.call, h1, h2, hot, Except.isOk, Except.toBool]
        · simp [OTPValidator.call, h1, h2, hot, Except.isOk, Except.toBool]
      · simp [OTPValidator.call, h1, h2, Except.isOk, Except.toBool]

/-- C6: for the HOTP matcher with a counter-injective code function, the
code computed for counter `M + k` (for any offset `k` with `|k| ≤ W` whose
counter does not underflow) validates and reports exactly offset `k`; the
code computed for counter `M + W + 1` fails with the no-match error; with
moving factor 0 and window 5 the attempted offsets are exactly
`[0, 1, 2, 3, 4, 5]` (the lower bound clamps to 0); and in general every
attempted counter is non-negative. -/
theorem c6_hotp_window_semantics (cc : Bytes → Nat → Nat → Bytes)
    (secret : Bytes) (M W digits : Nat) (k : Int)
    (hk : k.natAbs ≤ W) (hpos : 0 ≤ (M : Int) + k)
    (hinj : ∀ c1 < M + W + 2, ∀ c2 < M + W + 2,
      cc secret c1 digits = cc secret c2 digits → c1 = c2) :
    hotp_validate cc secret M W digits
        (cc secret ((M : Int) + k).toNat digits) = .ok k
    ∧ hotp_validate cc secret M W digits (cc secret (M + W + 1) digits)
        = .error (.runtimeError noMatchMsg)
    ∧ candidateOffsets 0 5 = [0, 1, 2, 3, 4, 5]
    ∧ (∀ j ∈ candidateOffsets (M : Int) W, 0 ≤ (M : Int) + j) := by
  refine ⟨?_, ?_, by decide, fun j hj => ((mem_candidateOffsets _ _ _).1 hj).2⟩
  · have hmem : k ∈ candidateOffsets (M : Int) W :=
      (mem_candidateOffsets _ _ _).2 ⟨hk, hpos⟩
    have huniq : ∀ j ∈ candidateOffsets (M : Int) W,
        (decide (cc secret (((M : Int) + j).toNat) digits
          = cc secret (((M : Int) + k).toNat) digits) = true) ↔ j = k := by
      intro j hj
      obtain ⟨hjW, hjpos⟩ := (mem_candidateOffsets _ _ _).1 hj
      constructor
      · intro hdec
        have heq := of_decide_eq_true hdec
        have h1 : ((M : Int) + j).toNat < M + W + 2 := by omega
        have h2 : ((M : Int) + k).toNat < M + W + 2 := by omega
        have h3 := hinj _ h1 _ h2 heq
        omega
      · intro h
        subst h
        simp
    have hfind := find_unique hmem huniq
    unfold hotp_validate window_scan
    rw [hfind]
  · have hnone : (candidateOffsets (M : Int) W).find?
        (fun j => decide (cc secret (((M : Int) + j).toNat) digits
          = cc secret (M + W + 1) digits)) = none := by
      apply List.find?_eq_none.2
      intro j hj
      obtain ⟨hjW, hjpos⟩ := (mem_candidateOffsets _ _ _).1 hj
      simp only [decide_eq_true_eq]
      intro heq
      have h1 : ((M : Int) + j).toNat < M + W + 2 := by omega
      have h2 : M + W + 1 < M + W + 2 := by omega
      have h3 := hinj _ h1 _ h2 heq
      omega
    unfold hotp_validate window_scan
    rw [hnone]

/-- Witness for C6: with the counter-injective concrete code function, the
window around moving factor 5 with window 1 accepts the code for counter 4
at offset −1, rejects the code for counter 7, and clamps as stated. -/
theorem c6_hotp_window_semantics_witness :
    hotp_validate cc0 (to_bytes "k") 5 1 1
        (cc0 (to_bytes "k") (((5 : Nat) : Int) + (-1)).toNat 1) = .ok (-1)
    ∧ hotp_validate cc0 (to_bytes "k") 5 1 1
        (cc0 (to_bytes "k") (5 + 1 + 1) 1)
        = .error (.runtimeError noMatchMsg)
    ∧ candidateOffsets 0 5 = [0, 1, 2, 3, 4, 5]
    ∧ (∀ j ∈ candidateOffsets ((5 : Nat) : Int) 1, 0 ≤ ((5 : Nat) : Int) + j) :=
  c6_hotp_window_semantics cc0 (to_bytes "k") 5 1 1 (-1) (by decide)
    (by decide) (by decide)

/-- C7: the time-step size used at matching time is always a concrete
positive value — an unset `time_step_size` is used as 30, so the matcher
and the whole validation call behave identically to an explicit 30, and a
caller-supplied positive value is used as given. -/
theorem c7_time_step_defaulted (cc : Bytes → Nat → Nat → Bytes)
    (secret : Bytes) (now start : Int) (window digits : Nat) (code : Bytes)
    (t : Nat) (ht : 0 < t) (v : TOTPValidator)
    (hnone : v.time_step_size = none) (nw : Int) (form : Form)
    (field : Field) :
    totpStepUsed none = 30
    ∧ 0 < totpStepUsed none
    ∧ totpStepUsed (some t) = t
    ∧ totp_validate cc secret now none start window digits code
        = totp_validate cc secret now (some 30) start window digits code
    ∧ v.call nw form field
        = TOTPValidator.call { v with time_step_size := some 30 } nw form
            field := by
  refine ⟨rfl, by decide, rfl, rfl, ?_⟩
  simp [TOTPValidator.call, OTPValidator.call, TOTPValidator.otp_validate,
    OTPValidator.get_oath_secret, totp_validate, totpStepUsed, hnone]

/-- Witness for C7: the concrete TOTP validator with unset step behaves
identically to the same validator with step 30. -/
theorem c7_time_step_defaulted_witness :
    totpStepUsed none = 30
    ∧ 0 < totpStepUsed none
    ∧ totpStepUsed (some 60) = 60
    ∧ totp_validate cc0 (to_bytes "k") 59 none 0 1 1 (to_bytes "1")
        = totp_validate cc0 (to_bytes "k") 59 (some 30) 0 1 1 (to_bytes "1")
    ∧ vT.call 59 form0 ⟨some "1"⟩
        = TOTPValidator.call { vT with time_step_size := some 30 } 59 form0
            ⟨some "1"⟩ :=
  c7_time_step_defaulted cc0 (to_bytes "k") 59 0 1 1 (to_bytes "1") 60
    (by decide) vT rfl 59 form0 ⟨some "1"⟩

/-- C8: the sampled current time enters the TOTP matcher exactly once — the
whole window scan runs against the single base counter
`floor((now - start) / step)` computed from it — and a validation call is a
pure function of its inputs, so two calls with identical inputs (including
the identical sampled time) produce identical outcomes. -/
theorem c8_single_time_sample (cc : Bytes → Nat → Nat → Bytes)
    (secret : Bytes) (now start : Int) (tss : Option Nat)
    (window digits : Nat) (code : Bytes) (v : TOTPValidator) (form : Form)
    (field : Field) :
    totp_validate cc secret now tss start window digits code
      = window_scan cc secret
          (Int.fdiv (now - start) (totpStepUsed tss : Int)) window digits
          code
    ∧ v.call now form field = v.call now form field :=
  ⟨rfl, rfl⟩

/-- C9: the secret-resolution capability is invoked exactly once per call
that passes the structural checks and zero times when they fail (and then
the matcher also runs zero times, so no cryptographic comparison happens for
a missing or wrong-length code); two passing calls resolve the secret twice
— once each, nothing cached across calls. -/
theorem c9_resolve_once_no_cache (v : HOTPValidator) (form : Form)
    (field field2 : Field) :
    ((dataFalsy field.data = true ∨ (field.data.getD "").length ≠ v.digits) →
      (v.call form field).snd = ⟨0, 0⟩)
    ∧ (dataFalsy field.data = false → (field.data.getD "").length = v.digits →
      (v.call form field).snd.resolves = 1)
    ∧ (dataFalsy field.data = false → (field.data.getD "").length = v.digits →
      dataFalsy field2.data = false →
      (field2.data.getD "").length = v.digits →
      (v.call form field).snd.resolves
        + (v.call form field2).snd.resolves = 2) := by
  have pass : ∀ fld : Field, dataFalsy fld.data = false →
      (fld.data.getD "").length = v.digits →
      (v.call form fld).snd.resolves = 1 := by
    intro fld h1 h2
    have hres := otp_validate_resolves v form fld
    rcases hov : v.otp_validate form fld with ⟨r, n⟩
    rw [hov] at hres
    have hres2 : n.resolves = 1 := hres
    rcases r with exc | u
    · rcases exc with m | m <;>
        simp [HOTPValidator.call, OTPValidator.call, h1, h2, hov, hres2]
    · simp [HOTPValidator.call, OTPValidator.call, h1, h2, hov, hres2]
  refine ⟨?_, fun h1 h2 => pass field h1 h2, ?_⟩
  · intro h
    rcases h with h | h
    · simp [HOTPValidator.call, OTPValidator.call, h]
    · by_cases h1 : dataFalsy field.data
      · simp [HOTPValidator.call, OTPValidator.call, h1]
      · simp [HOTPValidator.call, OTPValidator.call, h1, h]
  · intro h1 h2 h3 h4
    rw [pass field h1 h2, pass field2 h3 h4]

/-- Witness for C9: a passing call resolves the secret exactly once; a call
with an absent code resolves it zero times and never reaches the matcher. -/
theorem c9_resolve_once_no_cache_witness :
    (v0.call form0 ⟨some "5"⟩).snd.resolves = 1
    ∧ (v0.call form0 ⟨none⟩).snd = ⟨0, 0⟩
    ∧ (v0.call form0 ⟨some "5"⟩).snd.resolves
        + (v0.call form0 ⟨some "6"⟩).snd.resolves = 2 :=
  ⟨(c9_resolve_once_no_cache v0 form0 ⟨some "5"⟩ ⟨some "5"⟩).2.1 rfl rfl,
   (c9_resolve_once_no_cache v0 form0 ⟨none⟩ ⟨none⟩).1 (Or.inl rfl),
   (c9_resolve_once_no_cache v0 form0 ⟨some "5"⟩ ⟨some "6"⟩).2.2 rfl rfl rfl
     rfl⟩

/-- C10: with no secret-resolution callable bound, the secret comes from the
form's user's `oath_secret` attribute; with a callable bound, its value is
used; in both paths it is converted with `to_bytes` before reaching the
matcher, and the HOTP matching step consumes exactly those bytes as the
key. -/
theorem c10_secret_paths_to_bytes (v : HOTPValidator) (form : Form)
    (field : Field) (g : Form → Field → Except PyExc String) (s : String)
    (hnone : v.get_secret = none) (hg : g form field = .ok s) :
    (v.toOTPValidator.get_oath_secret form field).fst
        = .ok (to_bytes form.user.oath_secret)
    ∧ (OTPValidator.get_oath_secret
        { v.toOTPValidator with get_secret := some g } form field).fst
        = .ok (to_bytes s)
    ∧ (v.otp_validate form field).fst
        = (hotp_validate v.oath (to_bytes form.user.oath_secret)
            v.start_moving_factor v.window v.digits
            (to_bytes (field.data.getD ""))).map (fun _ => ()) := by
  refine ⟨?_, ?_, ?_⟩
  · simp [OTPValidator.get_oath_secret, hnone]
  · simp [OTPValidator.get_oath_secret, hg, Except.map]
  · have hsec : v.toOTPValidator.get_oath_secret form field
        = (.ok (to_bytes form.user.oath_secret), ⟨1, 0⟩) := by
      simp [OTPValidator.get_oath_secret, hnone]
    rcases window_scan_shape v.oath (to_bytes form.user.oath_secret)
        v.start_moving_factor v.window v.digits
        (to_bytes (field.data.getD "")) with ⟨k, hk⟩ | hk <;>
      simp [HOTPValidator.otp_validate, hsec, hotp_validate, hk, Except.map]

/-- Witness for C10: the concrete validator without a callable reads the
user attribute and hands its `to_bytes` conversion to the matcher. -/
theorem c10_secret_paths_to_bytes_witness :
    (v0.toOTPValidator.get_oath_secret form0 ⟨some "5"⟩).fst
        = .ok (to_bytes form0.user.oath_secret)
    ∧ (OTPValidator.get_oath_secret
        { v0.toOTPValidator with get_secret := some (fun _ _ => .ok "s2") }
        form0 ⟨some "5"⟩).fst
        = .ok (to_bytes "s2")
    ∧ (v0.otp_validate form0 ⟨some "5"⟩).fst
        = (hotp_validate v0.oath (to_bytes form0.user.oath_secret)
            v0.start_moving_factor v0.window v0.digits
            (to_bytes ((some "5").getD ""))).map (fun _ => ()) :=
  c10_secret_paths_to_bytes v0 form0 ⟨some "5"⟩ (fun _ _ => .ok "s2") "s2"
    rfl rfl

end OathToolkit
